import Mathlib

/-!
# Shallow embedding of the `vscode-svd-viewer` tree-table view and message node

This file embeds, in Lean, the two source files under verification:

* the AntD tree-table React component (`AntDComponentTreeTable` and its helper
  renderers `renderActionColumn`, `createColumns`, the sorting `useEffect` and
  the `onRow` click handler), and
* the minimal informational tree node `MessageNode` from
  `src/views/nodes/messagenode.ts`.

Callbacks supplied through the component's props are opaque functions; the
embedding represents "the callback was invoked with these arguments" by the
list of `CallbackCall` values a handler emits, and represents the presence of
an optional callback by a boolean flag (`hasOnExpand`, `hasOnPin`,
`hasOnAction`).  JS `undefined` for optional fields is `Option.none`; the
optional-chaining operator `?.` is `Option.bind`/`Option.map` with the same
short-circuiting.
-/

namespace TreeTableView

/-- A JS value, as far as the component inspects one: `CommandDefinition.value`
has TypeScript type `unknown` and is only passed through to the action
callback. -/
inductive JsValue where
  | undef
  | boolean (b : Bool)
  | str (s : String)
  | num (n : Int)
deriving DecidableEq, Repr

/-- The external `CommandDefinition` type (imported from `../../../common`):
the fields the component reads are `commandId` (used as the React key),
`icon` (used in the class name) and `value` (forwarded to `onAction`). -/
structure CommandDefinition where
  commandId : String
  icon : String
  value : JsValue
deriving DecidableEq, Repr

/-- A tree-table row (`CDTTreeItem`).  Of the external type the component's
handlers read exactly two fields: `id` (membership test against
`expandedRowKeys`) and `pinned` (pin-toggle rendering). -/
structure CDTTreeItem where
  id : String
  pinned : Option Bool
deriving DecidableEq, Repr

/-- An action-column cell value (`CDTTreeTableActionColumn`): the renderer
reads only `commands`, through optional chaining (`column?.commands?.map`). -/
structure CDTTreeTableActionColumn where
  commands : Option (List CommandDefinition)
deriving DecidableEq, Repr

/-- A column definition: a field key plus a variant tag.  The tag is kept as a
plain string because `createColumns` only compares it against the recognized
discriminator values `"string"` and `"action"`. -/
structure CDTTreeTableColumnDefinition where
  type : String
  field : String
deriving DecidableEq, Repr

/-- The `expansion` prop: optional list of expanded row keys and optional
`onExpand` callback (presence recorded as a flag). -/
structure ExpansionConfig where
  expandedRowKeys : Option (List String)
  hasOnExpand : Bool
deriving DecidableEq, Repr

/-- The `pin` prop: optional list of pinned row keys and optional `onPin`
callback (presence recorded as a flag). -/
structure PinConfig where
  pinnedRowKeys : Option (List String)
  hasOnPin : Bool
deriving DecidableEq, Repr

/-- The `action` prop: optional `onAction` callback (presence recorded as a
flag). -/
structure ActionConfig where
  hasOnAction : Bool
deriving DecidableEq, Repr

/-- Props type `ComponentTreeTableProps`: every field is optional in the
source. -/
structure ComponentTreeTableProps where
  columnDefinitions : Option (List CDTTreeTableColumnDefinition)
  dataSource : Option (List CDTTreeItem)
  dataSourceComparer : Option (CDTTreeItem → CDTTreeItem → Int)
  expansion : Option ExpansionConfig
  pin : Option PinConfig
  action : Option ActionConfig

/-- An abstract token standing for a `React.MouseEvent`; the component never
inspects the event, it only forwards it. -/
abbrev Event := Nat

/-- One invocation of an outbound callback, with the arguments the component
passed.  `onExpand` receives `(expanded, record)` (no event: the row click
handler ignores its event), `onPin` receives `(event, pinned, record)`,
`onAction` receives `(event, command, value, record)`. -/
inductive CallbackCall where
  | expand (newExpanded : Bool) (record : CDTTreeItem)
  | pin (event : Event) (newPinned : Bool) (record : CDTTreeItem)
  | action (event : Event) (command : CommandDefinition) (value : JsValue) (record : CDTTreeItem)
deriving DecidableEq, Repr

/-- Models `props.expansion?.onExpand?.(args)`: emits the call only when the
`expansion` prop and the callback are both present. -/
def emitOnExpand (p : ComponentTreeTableProps) (newExpanded : Bool) (record : CDTTreeItem) :
    List CallbackCall :=
  match p.expansion with
  | some e => if e.hasOnExpand then [.expand newExpanded record] else []
  | none => []

/-- Models `props.pin?.onPin?.(event, pinned, record)`. -/
def emitOnPin (p : ComponentTreeTableProps) (event : Event) (newPinned : Bool)
    (record : CDTTreeItem) : List CallbackCall :=
  match p.pin with
  | some c => if c.hasOnPin then [.pin event newPinned record] else []
  | none => []

/-- Models `props.action?.onAction?.(event, command, command.value,
record)`. -/
def emitOnAction (p : ComponentTreeTableProps) (event : Event) (command : CommandDefinition)
    (value : JsValue) (record : CDTTreeItem) : List CallbackCall :=
  match p.action with
  | some c => if c.hasOnAction then [.action event command value record] else []
  | none => []

/-- The `onClick` handler installed on every row through the table's `onRow`
prop:

```
onClick: () => {
  props.expansion?.onExpand?.(
    !props.expansion?.expandedRowKeys?.includes(record.id), record);
}
```

`expandedRowKeys?.includes(id)` is `undefined` when the key list is absent and
`!undefined` is `true`, so an absent list negates to `true` exactly like an
empty one. -/
def onRowClick (p : ComponentTreeTableProps) (record : CDTTreeItem) : List CallbackCall :=
  emitOnExpand p
    (!(((p.expansion.bind (·.expandedRowKeys)).getD []).contains record.id)) record

/-- One `<i>` icon produced by `renderActionColumn`: its React key, class name
and click handler. -/
structure ActionIcon where
  key : String
  className : String
  onClick : Event → List CallbackCall

/-- The `actions` array built at the top of `renderActionColumn`: a single
pin/unpin toggle when `record.pinned !== undefined`, whose click emits
`onPin(event, !record.pinned, record)`; nothing otherwise. -/
def pinToggleIcons (p : ComponentTreeTableProps) (record : CDTTreeItem) : List ActionIcon :=
  match record.pinned with
  | some true =>
      [{ key := "unpin", className := "codicon codicon-pin",
         onClick := fun event => emitOnPin p event false record }]
  | some false =>
      [{ key := "pin", className := "codicon codicon-pinned",
         onClick := fun event => emitOnPin p event true record }]
  | none => []

/-- The command icons of an action cell: one per entry of `column?.commands`,
each clicking through to `onAction(event, command, command.value, record)`. -/
def commandIcons (p : ComponentTreeTableProps) (column : Option CDTTreeTableActionColumn)
    (record : CDTTreeItem) : List ActionIcon :=
  ((column.bind (·.commands)).getD []).map fun command =>
    { key := command.commandId
      className := "codicon codicon-" ++ command.icon
      onClick := fun event => emitOnAction p event command command.value record }

/-- Source function `renderActionColumn`: the pin toggle (when any) followed
by the command icons. -/
def renderActionColumn (p : ComponentTreeTableProps)
    (column : Option CDTTreeTableActionColumn) (record : CDTTreeItem) : List ActionIcon :=
  pinToggleIcons p record ++ commandIcons p column record

/-- Dispatch of a user click on icon number `i` of an action cell in
`record`'s row.  React synthetic click events bubble from the innermost target
outward, and no icon `onClick` in `renderActionColumn` calls
`stopPropagation`, so after the icon's own handler runs the click reaches the
row element, whose `onClick` (installed through `onRow`) runs as well. -/
def clickActionIcon (p : ComponentTreeTableProps)
    (column : Option CDTTreeTableActionColumn) (record : CDTTreeItem) (i : Nat)
    (event : Event) : List CallbackCall :=
  match (renderActionColumn p column record)[i]? with
  | some icon => icon.onClick event ++ onRowClick p record
  | none => []

/-- JS `Array.prototype.sort(cmp)` ordering predicate: `a` may stay before `b`
whenever `cmp a b ≤ 0`. -/
def jsSortLe (cmp : CDTTreeItem → CDTTreeItem → Int) (a b : CDTTreeItem) : Bool :=
  cmp a b ≤ 0

/-- Result content of JS `Array.prototype.sort(cmp)` (ECMAScript requires a
stable sort; for a consistent comparator the stable result is unique, so the
stable `List.mergeSort` models it exactly).  `sort` mutates and returns the
receiver array.  When `cmp` is `undefined`, `sort` compares the elements'
string conversions; every `CDTTreeItem` converts to the same string
`"[object Object]"`, so the stable sort leaves the list unchanged. -/
def jsSort (l : List CDTTreeItem) (cmp : Option (CDTTreeItem → CDTTreeItem → Int)) :
    List CDTTreeItem :=
  match cmp with
  | some c => l.mergeSort (jsSortLe c)
  | none => l

/-- The `dataSource` state after the sorting effect

```
useEffect(() => {
  setDataSource((props.dataSource ?? []).sort(props.dataSourceComparer));
}, [props.dataSource, props.pin?.pinnedRowKeys]);
```

has run for the current props: the root rows held for rendering. -/
def heldDataSource (p : ComponentTreeTableProps) : List CDTTreeItem :=
  jsSort (p.dataSource.getD []) p.dataSourceComparer

/-- Content of the caller-supplied `props.dataSource` array after the sorting
effect has run.  `Array.prototype.sort` sorts in place, and when
`props.dataSource` is present it is itself the receiver of `.sort`, so the
caller's array ends up holding the sorted content.  (When `props.dataSource`
is absent, `?? []` sorts a fresh array and nothing of the caller is
touched.) -/
def dataSourceAfterRender (p : ComponentTreeTableProps) : Option (List CDTTreeItem) :=
  p.dataSource.map fun l => jsSort l p.dataSourceComparer

/-- The dependency list of the sorting effect:
`[props.dataSource, props.pin?.pinnedRowKeys]`. -/
def sortEffectDeps (p : ComponentTreeTableProps) :
    Option (List CDTTreeItem) × Option (List String) :=
  (p.dataSource, p.pin.bind (·.pinnedRowKeys))

/-- React re-runs an effect whenever its dependency list changed since the
previous render.  (React compares entries by reference; distinct values are
necessarily distinct references, so value inequality soundly implies a
re-run.) -/
def sortEffectReruns (prev next : ComponentTreeTableProps) : Prop :=
  sortEffectDeps prev ≠ sortEffectDeps next

/-- Which custom `render` function an antd column descriptor carries. -/
inductive CellRenderer where
  | stringCell
  | actionCell
deriving DecidableEq, Repr

/-- An antd column descriptor, restricted to the fields `createColumns`
populates: `title`, `dataIndex`, `width` and (optionally) a custom `render`
function, the latter represented by which renderer it is. -/
structure AntColumn where
  title : String
  dataIndex : List String
  width : Nat
  render : Option CellRenderer
deriving DecidableEq, Repr

/-- Source function `createColumns`: `"string"` definitions get the string cell renderer at
`dataIndex ['columns', field, 'label']`, `"action"` definitions get the action
cell renderer at `['columns', field]`, and any other variant tag falls through
to a default descriptor with `dataIndex ['columns', field, 'label']` and no
custom renderer. -/
def createColumns (defs : List CDTTreeTableColumnDefinition) : List AntColumn :=
  defs.map fun c =>
    if c.type = "string" then
      { title := c.field, dataIndex := ["columns", c.field, "label"], width := 0,
        render := some .stringCell }
    else if c.type = "action" then
      { title := c.field, dataIndex := ["columns", c.field], width := 64,
        render := some .actionCell }
    else
      { title := c.field, dataIndex := ["columns", c.field, "label"], width := 200,
        render := none }

/-- What the component returns: either the empty-state placeholder `<div>` or
the configured `<Table>`. -/
inductive RenderResult where
  | emptyState (text : String)
  | table (columns : List AntColumn) (rows : List CDTTreeItem)
deriving DecidableEq, Repr

/-- The component's return value: `if (dataSource.length === 0) return <div>No
children provided</div>;` against the held (sorted) row state, otherwise the
table over the created columns and the held rows. -/
def render (p : ComponentTreeTableProps) : RenderResult :=
  if heldDataSource p = [] then .emptyState "No children provided"
  else .table (createColumns (p.columnDefinitions.getD [])) (heldDataSource p)

end TreeTableView

namespace PeripheralNodes

/-- Stand-in for a reference to a `PeripheralBaseNode` (the abstract base
class lives in `basenode.ts`, outside the examined sources).  `MessageNode`'s
overrides never produce one, so nothing about its shape matters here. -/
structure PeripheralBaseNode where
  ref : Nat
deriving DecidableEq, Repr

/-- Stand-in for `AddrRange` (external `addrranges` module). -/
structure AddrRange where
  base : Nat
  length : Nat
deriving DecidableEq, Repr

/-- Stand-in for `NodeSetting` (external `common` module). -/
structure NodeSetting where
  node : String
deriving DecidableEq, Repr

/-- A VSCode `TreeItem.tooltip` value: `string | MarkdownString`. -/
inductive Tooltip where
  | str (s : String)
  | markdown (text : String)
deriving DecidableEq, Repr

/-- JS truthiness of a tooltip value: the empty string is falsy, any other
string is truthy, and a `MarkdownString` is an object, hence always truthy. -/
def Tooltip.truthy : Tooltip → Bool
  | .str s => s != ""
  | .markdown _ => true

/-- JS truthiness of the optional `tooltip` field itself: `undefined` is
falsy. -/
def jsTruthy : Option Tooltip → Bool
  | none => false
  | some t => t.truthy

/-- The `vscode.TreeItemCollapsibleState` enumeration. -/
inductive TreeItemCollapsibleState where
  | noneState
  | collapsed
  | expanded
deriving DecidableEq, Repr

/-- A VSCode `TreeItem`, restricted to the fields `MessageNode.getTreeItem`
touches; `tooltip = none` means the field was never assigned. -/
structure TreeItem where
  label : String
  collapsibleState : TreeItemCollapsibleState
  tooltip : Option Tooltip
deriving DecidableEq, Repr

/-- Class `MessageNode`: a fixed message and an optional tooltip. -/
structure MessageNode where
  message : String
  tooltip : Option Tooltip
deriving DecidableEq, Repr

/-- Method `getChildren(): []`. -/
def MessageNode.getChildren (_ : MessageNode) : List PeripheralBaseNode := []

/-- Method `getTreeItem()`: a `TreeItem` over the message with collapsible state
`None`; the tooltip field is assigned only when `this.tooltip` is truthy
(`if (this.tooltip)` — the source comments that a null crashes the VSCode
tree renderer). -/
def MessageNode.getTreeItem (n : MessageNode) : TreeItem :=
  let ti : TreeItem := { label := n.message, collapsibleState := .noneState, tooltip := none }
  if jsTruthy n.tooltip then { ti with tooltip := n.tooltip } else ti

/-- Method `getCopyValue(): undefined`. -/
def MessageNode.getCopyValue (_ : MessageNode) : Option String := none

/-- Method `performUpdate(): Promise.resolve(false)` — the resolved value. -/
def MessageNode.performUpdate (_ : MessageNode) : Bool := false

/-- Method `updateData(): Promise.resolve(false)` — the resolved value. -/
def MessageNode.updateData (_ : MessageNode) : Bool := false

/-- Method `getPeripheral(): undefined`. -/
def MessageNode.getPeripheral (_ : MessageNode) : Option PeripheralBaseNode := none

/-- Method `collectRanges(ary)` has an empty body: the accumulator content
after the call, which is unchanged. -/
def MessageNode.collectRanges (_ : MessageNode) (ary : List AddrRange) : List AddrRange := ary

/-- Method `saveState(path?): []`. -/
def MessageNode.saveState (_ : MessageNode) (_pathArg : Option String) : List NodeSetting := []

/-- Method `findByPath(path): undefined`. -/
def MessageNode.findByPath (_ : MessageNode) (_pathArg : List String) :
    Option PeripheralBaseNode := none

end PeripheralNodes

open TreeTableView PeripheralNodes

/-! ## Concrete fixtures used by witnesses and counterexamples -/

/-- A row with key `"a"` and no pinned state. -/
def rowA : CDTTreeItem := { id := "a", pinned := none }

/-- A row with key `"b"` and no pinned state. -/
def rowB : CDTTreeItem := { id := "b", pinned := none }

/-- A row with the two-character key `"zz"`, so that `byIdLen` orders it after
`rowA`. -/
def rowLong : CDTTreeItem := { id := "zz", pinned := none }

/-- A row whose pinned state is defined (`true`). -/
def rowPinned : CDTTreeItem := { id := "p", pinned := some true }

/-- A consistent tri-state comparator: order rows by the length of their
key. -/
def byIdLen : CDTTreeItem → CDTTreeItem → Int :=
  fun x y => (x.id.length : Int) - (y.id.length : Int)

/-- First sample command of an action column. -/
def cmdOne : CommandDefinition :=
  { commandId := "cmd-one", icon := "play", value := JsValue.str "v1" }

/-- Second sample command of an action column. -/
def cmdTwo : CommandDefinition :=
  { commandId := "cmd-two", icon := "close", value := JsValue.num 7 }

/-- An action-column cell carrying the two sample commands. -/
def actionCol : CDTTreeTableActionColumn := { commands := some [cmdOne, cmdTwo] }

/-- The row the C1 failing input clicks on. -/
def rowX : CDTTreeItem := { id := "X", pinned := none }

/-- Props with every field absent. -/
def emptyProps : ComponentTreeTableProps :=
  { columnDefinitions := none, dataSource := none, dataSourceComparer := none,
    expansion := none, pin := none, action := none }

/-- Props with all three callbacks supplied and empty key lists. -/
def fullProps : ComponentTreeTableProps :=
  { emptyProps with
    expansion := some { expandedRowKeys := some [], hasOnExpand := true },
    pin := some { pinnedRowKeys := some [], hasOnPin := true },
    action := some { hasOnAction := true } }

/-- Props with an `onExpand` callback and the given expanded-keys list. -/
def expProps (keys : Option (List String)) : ComponentTreeTableProps :=
  { emptyProps with expansion := some { expandedRowKeys := keys, hasOnExpand := true } }

/-- Props supplying the unsorted row list `[rowLong, rowA]` and the `byIdLen`
comparator. -/
def sortProps : ComponentTreeTableProps :=
  { emptyProps with dataSource := some [rowLong, rowA], dataSourceComparer := some byIdLen }

/-- Same props as `sortProps` with a changed pinned-key set. -/
def sortPropsPinned : ComponentTreeTableProps :=
  { sortProps with pin := some { pinnedRowKeys := some ["a"], hasOnPin := false } }

/-- A column definition whose variant tag is neither `"string"` nor
`"action"`. -/
def unknownColDef : CDTTreeTableColumnDefinition := { type := "expander", field := "x" }

/-- A message node constructed with an empty-string tooltip — a supplied, but
falsy, tooltip value. -/
def emptyTooltipNode : MessageNode := { message := "msg", tooltip := some (Tooltip.str "") }

/-- A message node constructed with a `MarkdownString` tooltip. -/
def markdownTooltipNode : MessageNode :=
  { message := "msg2", tooltip := some (Tooltip.markdown "docs") }

/-! ## Helper lemmas -/

/-- Bridge between the boolean sort predicate and its arithmetic meaning. -/
theorem jsSortLe_iff (cmp : CDTTreeItem → CDTTreeItem → Int) (a b : CDTTreeItem) :
    jsSortLe cmp a b = true ↔ cmp a b ≤ 0 := by
  simp [jsSortLe]

/-- Concrete evaluation of the stable sort on the two-row fixture. -/
theorem jsSortPairEval : jsSort [rowLong, rowA] (some byIdLen) = [rowA, rowLong] := by
  simp [jsSort, List.mergeSort, List.splitInTwo, List.splitAt, List.splitAt.go, List.merge,
    jsSortLe, byIdLen, rowA, rowLong]
  decide

/-! ## Claims -/

/-- C5: every minimal/informational node — any message, any optional tooltip —
resolves `getChildren` to the empty sequence, `getCopyValue` to no value,
`updateData` (refresh) to `false` ("did not complete"), `performUpdate`
(apply update) to `false` ("no change"), `saveState` to the empty sequence,
`collectRanges` leaves the accumulator untouched, `getPeripheral` yields none,
and `findByPath` yields "not found" for every path. -/
theorem c5_message_node_defaults (msg : String) (tt : Option Tooltip)
    (segs : List String) (acc : List AddrRange) (pathPrefix : Option String) :
    (MessageNode.mk msg tt).getChildren = [] ∧
    (MessageNode.mk msg tt).getCopyValue = none ∧
    (MessageNode.mk msg tt).updateData = false ∧
    (MessageNode.mk msg tt).performUpdate = false ∧
    (MessageNode.mk msg tt).saveState pathPrefix = [] ∧
    (MessageNode.mk msg tt).collectRanges acc = acc ∧
    (MessageNode.mk msg tt).getPeripheral = none ∧
    (MessageNode.mk msg tt).findByPath segs = none :=
  ⟨rfl, rfl, rfl, rfl, rfl, rfl, rfl, rfl⟩

/-- C9 counterexample: the node constructed with the empty-string tooltip has
a supplied tooltip (`some` value), yet the produced tree item omits the
tooltip field — the JS truthiness guard `if (this.tooltip)` filters the empty
string, not only `null`/`undefined`.  The claim "the tooltip field is set
whenever a tooltip was supplied at construction" is therefore false at this
input. -/
theorem c9_counterexample :
    emptyTooltipNode.tooltip ≠ none ∧ emptyTooltipNode.getTreeItem.tooltip = none :=
  ⟨by decide, rfl⟩

/-- C9 (amended): the display item sets the tooltip field — to the supplied
tooltip — exactly when the supplied tooltip is truthy (any `MarkdownString`,
or a non-empty string); when no tooltip was supplied, or the supplied tooltip
is the empty string, the field is entirely omitted (never assigned
`null`/`undefined`). -/
theorem c9_tooltip_truthiness (n : MessageNode) :
    (n.getTreeItem.tooltip ≠ none ↔ jsTruthy n.tooltip = true) ∧
    (jsTruthy n.tooltip = true → n.getTreeItem.tooltip = n.tooltip) ∧
    (n.tooltip = none → n.getTreeItem.tooltip = none) := by
  obtain ⟨m, tt⟩ := n
  rcases tt with _ | t
  · simp [MessageNode.getTreeItem, jsTruthy]
  · by_cases h : t.truthy <;>
      simp [MessageNode.getTreeItem, jsTruthy, h]

/-- C9 witness: a markdown tooltip is truthy and lands in the tree item; an
absent tooltip leaves the field unset. -/
theorem c9_witness :
    markdownTooltipNode.getTreeItem.tooltip = markdownTooltipNode.tooltip ∧
    (MessageNode.mk "plain" none).getTreeItem.tooltip = none :=
  ⟨(c9_tooltip_truthiness markdownTooltipNode).2.1 rfl,
   (c9_tooltip_truthiness (MessageNode.mk "plain" none)).2.2 rfl⟩

/-- C1 divergence, evaluated on the failing input: with both an action and an
expand callback supplied, clicking the second command's icon on row X does
invoke the action callback with `(event, cmdTwo, cmdTwo.value, rowX)` — but
the icon handler never stops propagation, so the same click bubbles to the
row element and the row's `onClick` also invokes the expand callback.  The
claim's "does not invoke the expand callback" part fails. -/
theorem c1_divergence :
    clickActionIcon fullProps (some actionCol) rowX 1 0 =
      [CallbackCall.action 0 cmdTwo (JsValue.num 7) rowX,
       CallbackCall.expand true rowX] := rfl

/-- C3: for every row and every expanded-keys list, a click on the row
(outside an action icon) invokes the expand callback with the row and the
logical negation of "the row's key is a member of the expanded-keys list". -/
theorem c3_row_click_toggles_expansion
    (p : ComponentTreeTableProps) (e : ExpansionConfig)
    (keys : List String) (record : CDTTreeItem)
    (hexp : p.expansion = some e) (hkeys : e.expandedRowKeys = some keys)
    (hcb : e.hasOnExpand = true) :
    onRowClick p record =
      [CallbackCall.expand (!(keys.contains record.id)) record] := by
  simp [onRowClick, emitOnExpand, hexp, hkeys, hcb]

/-- C3 witness: with `expandedRowKeys = ["a"]`, clicking row `"b"` emits
`expand(true, b)` and clicking row `"a"` emits `expand(false, a)`. -/
theorem c3_witness :
    onRowClick (expProps (some ["a"])) rowB = [CallbackCall.expand true rowB] ∧
    onRowClick (expProps (some ["a"])) rowA = [CallbackCall.expand false rowA] := by
  constructor
  · rw [c3_row_click_toggles_expansion (expProps (some ["a"])) ⟨some ["a"], true⟩ ["a"] rowB
      rfl rfl rfl]
    decide
  · rw [c3_row_click_toggles_expansion (expProps (some ["a"])) ⟨some ["a"], true⟩ ["a"] rowA
      rfl rfl rfl]
    decide

/-- C10: when the expansion configuration is absent the click is a silent
no-op (no callback could have been supplied); when the callback is absent the
click is a silent no-op; and when the expanded-keys list is absent but an
expand callback is supplied, a row click invokes it with new state `true` for
every row — an absent key list behaves exactly like an empty one. -/
theorem c10_absent_expansion_defaults (p : ComponentTreeTableProps) (record : CDTTreeItem) :
    (p.expansion = none → onRowClick p record = []) ∧
    (∀ e, p.expansion = some e → e.hasOnExpand = false → onRowClick p record = []) ∧
    (∀ e, p.expansion = some e → e.expandedRowKeys = none → e.hasOnExpand = true →
      onRowClick p record = [CallbackCall.expand true record]) := by
  refine ⟨fun h => ?_, fun e he hcb => ?_, fun e he hk hcb => ?_⟩
  · simp [onRowClick, emitOnExpand, h]
  · simp [onRowClick, emitOnExpand, he, hcb]
  · simp [onRowClick, emitOnExpand, he, hk, hcb]

/-- C10 witness: with an `onExpand` callback but no expanded-keys list, a
click on row `"a"` emits `expand(true, a)`; with no expansion configuration at
all, the click emits nothing. -/
theorem c10_witness :
    onRowClick (expProps none) rowA = [CallbackCall.expand true rowA] ∧
    onRowClick emptyProps rowA = [] :=
  ⟨(c10_absent_expansion_defaults (expProps none) rowA).2.2 ⟨none, true⟩ rfl rfl rfl,
   (c10_absent_expansion_defaults emptyProps rowA).1 rfl⟩

/-- C2 counterexample: supplying the row list `[rowLong, rowA]` with the
`byIdLen` comparator, the caller-supplied list object reads `[rowA, rowLong]`
after the render pass — `Array.prototype.sort` reordered it in place — so it
is not "unchanged (same elements in the same order as supplied)". -/
theorem c2_counterexample :
    sortProps.dataSource = some [rowLong, rowA] ∧
    dataSourceAfterRender sortProps = some [rowA, rowLong] ∧
    dataSourceAfterRender sortProps ≠ sortProps.dataSource := by
  have h : dataSourceAfterRender sortProps = some [rowA, rowLong] := by
    simp [dataSourceAfterRender, sortProps, jsSortPairEval]
  refine ⟨rfl, h, ?_⟩
  rw [h]
  decide

/-- C2 (amended): the view does not leave the caller-supplied row list
unchanged — the re-sort runs in place on it — but it only reorders: after a
render pass the caller's list holds exactly the stable sort of the supplied
elements, a permutation of what was supplied; no element is added, dropped or
replaced (all mutation of the nodes themselves remains the data provider's
responsibility). -/
theorem c2_input_list_permuted (p : ComponentTreeTableProps) (rows : List CDTTreeItem)
    (hR : p.dataSource = some rows) :
    dataSourceAfterRender p = some (jsSort rows p.dataSourceComparer) ∧
    (jsSort rows p.dataSourceComparer).Perm rows := by
  refine ⟨by simp [dataSourceAfterRender, hR], ?_⟩
  cases hc : p.dataSourceComparer with
  | none => exact List.Perm.refl rows
  | some c => simpa [jsSort] using List.mergeSort_perm rows (jsSortLe c)

/-- C2 witness: instance of the amended statement on the concrete fixture. -/
theorem c2_witness :
    dataSourceAfterRender sortProps = some (jsSort [rowLong, rowA] sortProps.dataSourceComparer) ∧
    (jsSort [rowLong, rowA] sortProps.dataSourceComparer).Perm [rowLong, rowA] :=
  c2_input_list_permuted sortProps [rowLong, rowA] rfl

/-- C4: for every supplied row list and comparator, the root rows held for
rendering are the supplied rows sorted by the comparator — by the stable
`mergeSort` on the comparator's "not greater" relation, a permutation of the
input that is pairwise ordered (for a transitive, total comparator) and stable
(every already-ordered sublist of the input survives as a sublist of the
output); and the sorting effect has `[props.dataSource,
props.pin?.pinnedRowKeys]` as its dependency list, so it re-runs both when
the row list changes and when the pinned-key set changes. -/
theorem c4_sorted_and_retriggered
    (p : ComponentTreeTableProps) (rows : List CDTTreeItem)
    (cmp : CDTTreeItem → CDTTreeItem → Int)
    (hR : p.dataSource = some rows) (hc : p.dataSourceComparer = some cmp)
    (htrans : ∀ a b c, cmp a b ≤ 0 → cmp b c ≤ 0 → cmp a c ≤ 0)
    (htotal : ∀ a b, cmp a b ≤ 0 ∨ cmp b a ≤ 0) :
    heldDataSource p = rows.mergeSort (jsSortLe cmp) ∧
    (heldDataSource p).Perm rows ∧
    (heldDataSource p).Pairwise (fun a b => cmp a b ≤ 0) ∧
    (∀ l : List CDTTreeItem, l.Pairwise (fun a b => cmp a b ≤ 0) → l.Sublist rows →
      l.Sublist (heldDataSource p)) ∧
    (∀ q, q.dataSource ≠ p.dataSource → sortEffectReruns p q) ∧
    (∀ q, q.pin.bind PinConfig.pinnedRowKeys ≠ p.pin.bind PinConfig.pinnedRowKeys →
      sortEffectReruns p q) := by
  have hheld : heldDataSource p = rows.mergeSort (jsSortLe cmp) := by
    simp [heldDataSource, jsSort, hR, hc]
  have btrans : ∀ a b c, jsSortLe cmp a b → jsSortLe cmp b c → jsSortLe cmp a c := by
    intro a b c hab hbc
    rw [jsSortLe_iff] at hab hbc ⊢
    exact htrans a b c hab hbc
  have btotal : ∀ a b, jsSortLe cmp a b || jsSortLe cmp b a := by
    intro a b
    rcases htotal a b with h | h <;> simp [jsSortLe, h]
  refine ⟨hheld, ?_, ?_, ?_, ?_, ?_⟩
  · rw [hheld]; exact List.mergeSort_perm rows (jsSortLe cmp)
  · rw [hheld]
    exact (List.sorted_mergeSort btrans btotal rows).imp
      fun {a b} h => (jsSortLe_iff cmp a b).mp h
  · intro l hlp hsub
    rw [hheld]
    exact List.sublist_mergeSort btrans btotal
      (hlp.imp fun {a b} h => (jsSortLe_iff cmp a b).mpr h) hsub
  · intro q hq
    show sortEffectDeps p ≠ sortEffectDeps q
    intro h
    exact hq (congrArg Prod.fst h).symm
  · intro q hq
    show sortEffectDeps p ≠ sortEffectDeps q
    intro h
    exact hq (congrArg Prod.snd h).symm

/-- C4 witness: the concrete fixture rows come out in comparator order, and
re-supplying the same row list with a changed pinned-key set re-triggers the
effect. -/
theorem c4_witness :
    heldDataSource sortProps = [rowA, rowLong] ∧
    sortEffectReruns sortProps sortPropsPinned := by
  obtain ⟨h1, -, -, -, -, hpin⟩ :=
    c4_sorted_and_retriggered sortProps [rowLong, rowA] byIdLen rfl rfl
      (by intro a b c h1 h2; simp only [byIdLen] at h1 h2 ⊢; omega)
      (by intro a b; simp only [byIdLen]; omega)
  refine ⟨?_, hpin sortPropsPinned (by decide)⟩
  rw [h1]
  simpa [jsSort] using jsSortPairEval

/-- C6: building the column set never fails — every definition yields a
column — and a definition whose variant tag is neither `"string"` nor
`"action"` degrades to a default label-only descriptor: title `field`,
`dataIndex ['columns', field, 'label']`, and no custom renderer. -/
theorem c6_unknown_variant_defaults
    (defs : List CDTTreeTableColumnDefinition) (i : Nat) (c : CDTTreeTableColumnDefinition)
    (hi : defs[i]? = some c) (hs : c.type ≠ "string") (ha : c.type ≠ "action") :
    (createColumns defs).length = defs.length ∧
    (createColumns defs)[i]? = some
      { title := c.field, dataIndex := ["columns", c.field, "label"], width := 200,
        render := none } := by
  constructor
  · simp [createColumns]
  · simp [createColumns, List.getElem?_map, hi, hs, ha]

/-- C6 witness: a single definition tagged `"expander"` produces exactly one
column, the default label-only descriptor for field `"x"`. -/
theorem c6_witness :
    (createColumns [unknownColDef]).length = 1 ∧
    (createColumns [unknownColDef])[0]? = some
      { title := "x", dataIndex := ["columns", "x", "label"], width := 200,
        render := none } := by
  have h := c6_unknown_variant_defaults [unknownColDef] 0 unknownColDef rfl
    (by decide) (by decide)
  simpa [unknownColDef] using h

/-- C7: the component renders the "No children provided" empty-state
placeholder exactly when the row list held for rendering is empty, and renders
the table over the held rows exactly when it is not — the placeholder is a
normal return value of the component, not a thrown error. -/
theorem c7_empty_state_iff (p : ComponentTreeTableProps) :
    (render p = RenderResult.emptyState "No children provided" ↔ heldDataSource p = []) ∧
    (render p = RenderResult.table (createColumns (p.columnDefinitions.getD []))
        (heldDataSource p) ↔ heldDataSource p ≠ []) := by
  by_cases h : heldDataSource p = [] <;> simp [render, h]

/-- C7 witness: empty props render the placeholder; the two-row fixture does
not. -/
theorem c7_witness :
    render emptyProps = RenderResult.emptyState "No children provided" ∧
    render sortProps ≠ RenderResult.emptyState "No children provided" := by
  constructor
  · exact (c7_empty_state_iff emptyProps).1.mpr rfl
  · intro h
    have h0 := (c7_empty_state_iff sortProps).1.mp h
    have h2 := congrArg List.length h0
    simp [heldDataSource, jsSort, sortProps] at h2

/-- C8: in every action cell a pin/unpin toggle icon is rendered exactly when
the row's pinned state is defined, it precedes the command icons, and clicking
it invokes the pin callback with the event, the logical negation of the
current pinned state, and the row. -/
theorem c8_pin_toggle
    (p : ComponentTreeTableProps) (pc : PinConfig)
    (column : Option CDTTreeTableActionColumn) (record : CDTTreeItem) (event : Event)
    (hp : p.pin = some pc) (hcb : pc.hasOnPin = true) :
    (pinToggleIcons p record = [] ↔ record.pinned = none) ∧
    (∀ b, record.pinned = some b →
      ∃ icon, pinToggleIcons p record = [icon] ∧
        renderActionColumn p column record = icon :: commandIcons p column record ∧
        icon.onClick event = [CallbackCall.pin event (!b) record]) := by
  constructor
  · cases hpin : record.pinned with
    | none => simp [pinToggleIcons, hpin]
    | some b => cases b <;> simp [pinToggleIcons, hpin]
  · intro b hb
    cases b with
    | false =>
      refine ⟨{ key := "pin", className := "codicon codicon-pinned",
                onClick := fun event => emitOnPin p event true record }, ?_, ?_, ?_⟩
      · simp [pinToggleIcons, hb]
      · simp [renderActionColumn, pinToggleIcons, hb]
      · simp [emitOnPin, hp, hcb]
    | true =>
      refine ⟨{ key := "unpin", className := "codicon codicon-pin",
                onClick := fun event => emitOnPin p event false record }, ?_, ?_, ?_⟩
      · simp [pinToggleIcons, hb]
      · simp [renderActionColumn, pinToggleIcons, hb]
      · simp [emitOnPin, hp, hcb]

/-- C8 witness: an unpinned-state-free row renders no toggle; a row pinned
`true` renders exactly one toggle ahead of the command icons whose click emits
`pin(event, false, row)`. -/
theorem c8_witness :
    pinToggleIcons fullProps rowA = [] ∧
    ∃ icon, pinToggleIcons fullProps rowPinned = [icon] ∧
      renderActionColumn fullProps none rowPinned = icon :: commandIcons fullProps none rowPinned ∧
      icon.onClick 0 = [CallbackCall.pin 0 false rowPinned] := by
  obtain ⟨hiffA, -⟩ := c8_pin_toggle fullProps { pinnedRowKeys := some [], hasOnPin := true }
    none rowA 0 rfl rfl
  obtain ⟨-, hex⟩ := c8_pin_toggle fullProps { pinnedRowKeys := some [], hasOnPin := true }
    none rowPinned 0 rfl rfl
  refine ⟨hiffA.mpr rfl, ?_⟩
  simpa using hex true rfl
